import Mathlib

/- Shallow embedding of the Coastal Threat System ML service, from
src/backend/ml-service/app.py and src/ml-service/utils/model_persistence.py.
Machine floats are modelled as rationals.  Python's round(x, n) (banker's
rounding, round-half-to-even) is modelled by roundHalfEven / pyRound.
Python exceptions are modelled with Except.  -/

/-- Python's built-in round to an integer: round-half-to-even. -/
def roundHalfEven (x : ℚ) : ℤ :=
  if x - (⌊x⌋ : ℚ) < 1/2 then ⌊x⌋
  else if 1/2 < x - (⌊x⌋ : ℚ) then ⌊x⌋ + 1
  else if Even ⌊x⌋ then ⌊x⌋ else ⌊x⌋ + 1

/-- Python's round(x, ndigits) on a rational. -/
def pyRound (x : ℚ) (ndigits : ℕ) : ℚ :=
  ((roundHalfEven (x * 10 ^ ndigits) : ℤ) : ℚ) / 10 ^ ndigits

theorem floor_le_roundHalfEven (x : ℚ) : ⌊x⌋ ≤ roundHalfEven x := by
  unfold roundHalfEven
  split_ifs <;> omega

theorem roundHalfEven_le_floor_add_one (x : ℚ) : roundHalfEven x ≤ ⌊x⌋ + 1 := by
  unfold roundHalfEven
  split_ifs <;> omega

theorem roundHalfEven_mono {x y : ℚ} (h : x ≤ y) : roundHalfEven x ≤ roundHalfEven y := by
  have hf : ⌊x⌋ ≤ ⌊y⌋ := Int.floor_mono h
  rcases lt_or_eq_of_le hf with hlt | heq
  · calc roundHalfEven x ≤ ⌊x⌋ + 1 := roundHalfEven_le_floor_add_one x
    _ ≤ ⌊y⌋ := by omega
    _ ≤ roundHalfEven y := floor_le_roundHalfEven y
  · unfold roundHalfEven
    rw [← heq]
    have hxy : x - (⌊x⌋ : ℚ) ≤ y - (⌊x⌋ : ℚ) := by linarith
    split_ifs <;> first | omega | linarith

theorem roundHalfEven_intCast (m : ℤ) : roundHalfEven (m : ℚ) = m := by
  unfold roundHalfEven
  rw [Int.floor_intCast]
  simp

theorem pyRound_mono {x y : ℚ} (n : ℕ) (h : x ≤ y) : pyRound x n ≤ pyRound y n := by
  unfold pyRound
  have hpow : (0:ℚ) < 10 ^ n := by positivity
  have h1 : x * 10 ^ n ≤ y * 10 ^ n := mul_le_mul_of_nonneg_right h (le_of_lt hpow)
  have h2 : ((roundHalfEven (x * 10 ^ n) : ℤ) : ℚ) ≤ ((roundHalfEven (y * 10 ^ n) : ℤ) : ℚ) := by
    exact_mod_cast roundHalfEven_mono h1
  exact div_le_div_of_nonneg_right h2 (le_of_lt hpow)

theorem pyRound_int_div_pow (m : ℤ) (n : ℕ) :
    pyRound ((m : ℚ) / 10 ^ n) n = (m : ℚ) / 10 ^ n := by
  unfold pyRound
  have hpow : ((10:ℚ) ^ n) ≠ 0 := by positivity
  have hx : ((m : ℚ) / 10 ^ n) * 10 ^ n = (m : ℚ) := by field_simp
  rw [hx, roundHalfEven_intCast]

theorem pyRound_range {a b x : ℚ} {n : ℕ} (ha : pyRound a n = a) (hb : pyRound b n = b)
    (h1 : a ≤ x) (h2 : x ≤ b) : a ≤ pyRound x n ∧ pyRound x n ≤ b :=
  ⟨ha ▸ pyRound_mono n h1, hb ▸ pyRound_mono n h2⟩

/- Section: Risk Aggregator (app.py, module-level _calculate_overall_risk, lines 857-893). -/

/-- Result dict of _calculate_flood_risk: risk_level, confidence, max_predicted_level,
threshold_exceeded (the empty-input result {risk_level: unknown, confidence: 0} is
modelled with max_predicted_level 0 and threshold_exceeded false). -/
structure FloodRisk where
  risk_level : String
  confidence : ℚ
  max_predicted_level : ℚ
  threshold_exceeded : Bool
deriving DecidableEq

/-- An auxiliary risk factor dict as built in predict_flood_risk. -/
structure RiskFactor where
  factor : String
  severity : String
  description : String
deriving DecidableEq

/-- The risk_scores dict lookup with default 1: risk_scores.get(level, 1). -/
def riskScores (level : String) : ℕ :=
  if level = "minimal" then 1
  else if level = "low" then 2
  else if level = "medium" then 3
  else if level = "high" then 4
  else if level = "critical" then 5
  else 1

/-- Result of _calculate_overall_risk. -/
structure OverallRisk where
  level : String
  score : ℕ
  confidence : ℚ
deriving DecidableEq

/-- One iteration of the factor loop in _calculate_overall_risk: +2 for a high
severity factor, +1 for medium, else unchanged. -/
def factorContribution (score : ℕ) (f : RiskFactor) : ℕ :=
  if f.severity = "high" then score + 2
  else if f.severity = "medium" then score + 1
  else score

/-- Embedding of _calculate_overall_risk (app.py lines 857-893). -/
def calculateOverallRisk (waterRisk : FloodRisk) (additionalFactors : List RiskFactor) :
    OverallRisk :=
  let baseScore := riskScores waterRisk.risk_level
  let finalScore := additionalFactors.foldl factorContribution baseScore
  let overallLevel :=
    if finalScore ≥ 7 then "critical"
    else if finalScore ≥ 5 then "high"
    else if finalScore ≥ 3 then "medium"
    else if finalScore ≥ 2 then "low"
    else "minimal"
  ⟨overallLevel, finalScore, waterRisk.confidence⟩

theorem foldl_factorContribution (factors : List RiskFactor) (b : ℕ) :
    factors.foldl factorContribution b =
      b + 2 * factors.countP (fun f => f.severity == "high")
        + factors.countP (fun f => f.severity == "medium") := by
  induction factors generalizing b with
  | nil => simp
  | cons f fs ih =>
    simp only [List.foldl_cons, List.countP_cons, ih]
    unfold factorContribution
    by_cases h1 : f.severity = "high"
    · simp [h1]
      omega
    · by_cases h2 : f.severity = "medium"
      · simp [h1, h2]
        omega
      · simp [h1, h2]

/-- Claim C1: the Risk Aggregator's score is the ordinal base score
(minimal 1, low 2, medium 3, high 4, critical 5) plus 2 per high-severity
auxiliary factor and 1 per medium-severity one; the level comes from the
summed score via the thresholds 7, 5, 3, 2; the score does not depend on
the order of the auxiliary factor list; and a critical base with no
factors scores 5, level high. -/
theorem calculateOverallRisk_spec (waterRisk : FloodRisk) (factors : List RiskFactor) :
    ((calculateOverallRisk waterRisk factors).score =
        riskScores waterRisk.risk_level
          + 2 * factors.countP (fun f => f.severity == "high")
          + factors.countP (fun f => f.severity == "medium"))
    ∧ (riskScores "minimal" = 1 ∧ riskScores "low" = 2 ∧ riskScores "medium" = 3
        ∧ riskScores "high" = 4 ∧ riskScores "critical" = 5)
    ∧ (7 ≤ (calculateOverallRisk waterRisk factors).score →
        (calculateOverallRisk waterRisk factors).level = "critical")
    ∧ (5 ≤ (calculateOverallRisk waterRisk factors).score →
        (calculateOverallRisk waterRisk factors).score < 7 →
        (calculateOverallRisk waterRisk factors).level = "high")
    ∧ (3 ≤ (calculateOverallRisk waterRisk factors).score →
        (calculateOverallRisk waterRisk factors).score < 5 →
        (calculateOverallRisk waterRisk factors).level = "medium")
    ∧ (2 ≤ (calculateOverallRisk waterRisk factors).score →
        (calculateOverallRisk waterRisk factors).score < 3 →
        (calculateOverallRisk waterRisk factors).level = "low")
    ∧ ((calculateOverallRisk waterRisk factors).score < 2 →
        (calculateOverallRisk waterRisk factors).level = "minimal")
    ∧ (∀ factors2, factors.Perm factors2 →
        (calculateOverallRisk waterRisk factors2).score =
          (calculateOverallRisk waterRisk factors).score)
    ∧ (waterRisk.risk_level = "critical" → factors = [] →
        (calculateOverallRisk waterRisk factors).score = 5
          ∧ (calculateOverallRisk waterRisk factors).level = "high") := by
  have hscore : ∀ fs : List RiskFactor, (calculateOverallRisk waterRisk fs).score =
      riskScores waterRisk.risk_level
        + 2 * fs.countP (fun f => f.severity == "high")
        + fs.countP (fun f => f.severity == "medium") := by
    intro fs
    unfold calculateOverallRisk
    exact foldl_factorContribution fs _
  have hlevel : (calculateOverallRisk waterRisk factors).level =
      (if (calculateOverallRisk waterRisk factors).score ≥ 7 then "critical"
       else if (calculateOverallRisk waterRisk factors).score ≥ 5 then "high"
       else if (calculateOverallRisk waterRisk factors).score ≥ 3 then "medium"
       else if (calculateOverallRisk waterRisk factors).score ≥ 2 then "low"
       else "minimal") := rfl
  refine ⟨hscore factors, by simp [riskScores], ?_, ?_, ?_, ?_, ?_, ?_, ?_⟩
  · intro h7
    rw [hlevel, if_pos h7]
  · intro h5 h7
    rw [hlevel, if_neg (by omega), if_pos h5]
  · intro h3 h5
    rw [hlevel, if_neg (by omega), if_neg (by omega), if_pos h3]
  · intro h2 h3
    rw [hlevel, if_neg (by omega), if_neg (by omega), if_neg (by omega), if_pos h2]
  · intro h2
    rw [hlevel, if_neg (by omega), if_neg (by omega), if_neg (by omega), if_neg (by omega)]
  · intro factors2 hperm
    rw [hscore factors2, hscore factors, hperm.countP_eq, hperm.countP_eq]
  · intro hcrit hnil
    subst hnil
    constructor
    · rw [hscore []]
      simp [hcrit, riskScores]
    · have h5 : (calculateOverallRisk waterRisk []).score = 5 := by
        rw [hscore []]
        simp [hcrit, riskScores]
      rw [hlevel, if_neg (by omega), if_pos (by omega)]

/-- Concrete instantiation of the C1 theorem: a critical base with no factors
scores 5 and maps to level high, and the score is invariant under swapping
two auxiliary factors. -/
theorem calculateOverallRisk_spec_witness :
    (calculateOverallRisk ⟨"critical", 95, 2, true⟩ []).score = 5
      ∧ (calculateOverallRisk ⟨"critical", 95, 2, true⟩ []).level = "high"
      ∧ (calculateOverallRisk ⟨"critical", 95, 2, true⟩
          [⟨"high_winds", "medium", "d2"⟩, ⟨"heavy_rainfall", "high", "d1"⟩]).score =
        (calculateOverallRisk ⟨"critical", 95, 2, true⟩
          [⟨"heavy_rainfall", "high", "d1"⟩, ⟨"high_winds", "medium", "d2"⟩]).score := by
  refine ⟨?_, ?_, ?_⟩
  · exact ((calculateOverallRisk_spec ⟨"critical", 95, 2, true⟩ []).2.2.2.2.2.2.2.2 rfl rfl).1
  · exact ((calculateOverallRisk_spec ⟨"critical", 95, 2, true⟩ []).2.2.2.2.2.2.2.2 rfl rfl).2
  · exact (calculateOverallRisk_spec ⟨"critical", 95, 2, true⟩
      [⟨"heavy_rainfall", "high", "d1"⟩, ⟨"high_winds", "medium", "d2"⟩]).2.2.2.2.2.2.2.1
      [⟨"high_winds", "medium", "d2"⟩, ⟨"heavy_rainfall", "high", "d1"⟩] (by decide)

/- Section: Flood Risk Scorer (_calculate_flood_risk, app.py lines 311-350). -/

/-- One formatted forecast point as produced by predict_water_levels. -/
structure ForecastPoint where
  ts : ℚ
  predicted_value : ℚ
  lower_bound : ℚ
  upper_bound : ℚ
deriving DecidableEq

/-- Python max() over a list of values; only used on nonempty lists. -/
def listMax : List ℚ → ℚ
  | [] => 0
  | x :: xs => xs.foldl max x

/-- Embedding of _calculate_flood_risk (app.py lines 311-350). -/
def calculateFloodRisk (predictions : List ForecastPoint) : FloodRisk :=
  match predictions with
  | [] => ⟨"unknown", 0, 0, false⟩
  | p :: ps =>
    let maxValue := listMax ((p :: ps).map (fun q => q.predicted_value))
    let levelConf : String × ℚ :=
      if maxValue ≥ 2.0 then ("critical", 95)
      else if maxValue ≥ 1.5 then ("high", 85)
      else if maxValue ≥ 1.2 then ("medium", 70)
      else if maxValue ≥ 0.8 then ("low", 60)
      else ("minimal", 90)
    ⟨levelConf.1, levelConf.2, pyRound maxValue 3, decide (maxValue > 0.8)⟩

theorem listMax_spec (x : ℚ) (xs : List ℚ) :
    listMax (x :: xs) ∈ x :: xs ∧ ∀ y ∈ x :: xs, y ≤ listMax (x :: xs) := by
  induction xs generalizing x with
  | nil => simp [listMax]
  | cons z zs ih =>
    have hfold : listMax (x :: z :: zs) = listMax (max x z :: zs) := rfl
    rcases ih (max x z) with ⟨hmem, hle⟩
    constructor
    · rw [hfold]
      rcases List.mem_cons.mp hmem with h | h
      · rcases max_choice x z with hc | hc
        · rw [h, hc]
          exact List.mem_cons_self _ _
        · rw [h, hc]
          exact List.mem_cons_of_mem _ (List.mem_cons_self _ _)
      · exact List.mem_cons_of_mem _ (List.mem_cons_of_mem _ h)
    · intro y hy
      rw [hfold]
      rcases List.mem_cons.mp hy with h | h
      · calc y = x := h
        _ ≤ max x z := le_max_left x z
        _ ≤ listMax (max x z :: zs) := hle _ (List.mem_cons_self _ _)
      · rcases List.mem_cons.mp h with h2 | h2
        · calc y = z := h2
          _ ≤ max x z := le_max_right x z
          _ ≤ listMax (max x z :: zs) := hle _ (List.mem_cons_self _ _)
        · exact hle y (List.mem_cons_of_mem _ h2)

/-- Claim C2: on a nonempty forecast the Flood Risk Scorer takes the maximum
predicted value and maps it through the thresholds 0.8, 1.2, 1.5, 2.0 with
a greater-or-equal comparison at every boundary (so a value exactly at a
threshold maps to that tier), attaching the fixed confidences 95/85/70/60
and 90 below the lowest tier; the empty forecast yields risk_level unknown
with confidence 0. -/
theorem calculateFloodRisk_spec :
    (∀ (p : ForecastPoint) (ps : List ForecastPoint),
      (listMax ((p :: ps).map (fun q => q.predicted_value)) ∈
          (p :: ps).map (fun q => q.predicted_value)
        ∧ ∀ v ∈ (p :: ps).map (fun q => q.predicted_value),
            v ≤ listMax ((p :: ps).map (fun q => q.predicted_value)))
      ∧ (2.0 ≤ listMax ((p :: ps).map (fun q => q.predicted_value)) →
          (calculateFloodRisk (p :: ps)).risk_level = "critical")
      ∧ ((calculateFloodRisk (p :: ps)).risk_level = "critical" →
          2.0 ≤ listMax ((p :: ps).map (fun q => q.predicted_value)))
      ∧ ((calculateFloodRisk (p :: ps)).risk_level = "critical" →
          (calculateFloodRisk (p :: ps)).confidence = 95)
      ∧ (1.5 ≤ listMax ((p :: ps).map (fun q => q.predicted_value)) →
          listMax ((p :: ps).map (fun q => q.predicted_value)) < 2.0 →
          (calculateFloodRisk (p :: ps)).risk_level = "high")
      ∧ ((calculateFloodRisk (p :: ps)).risk_level = "high" →
          1.5 ≤ listMax ((p :: ps).map (fun q => q.predicted_value))
            ∧ listMax ((p :: ps).map (fun q => q.predicted_value)) < 2.0)
      ∧ ((calculateFloodRisk (p :: ps)).risk_level = "high" →
          (calculateFloodRisk (p :: ps)).confidence = 85)
      ∧ (1.2 ≤ listMax ((p :: ps).map (fun q => q.predicted_value)) →
          listMax ((p :: ps).map (fun q => q.predicted_value)) < 1.5 →
          (calculateFloodRisk (p :: ps)).risk_level = "medium")
      ∧ ((calculateFloodRisk (p :: ps)).risk_level = "medium" →
          1.2 ≤ listMax ((p :: ps).map (fun q => q.predicted_value))
            ∧ listMax ((p :: ps).map (fun q => q.predicted_value)) < 1.5)
      ∧ ((calculateFloodRisk (p :: ps)).risk_level = "medium" →
          (calculateFloodRisk (p :: ps)).confidence = 70)
      ∧ (0.8 ≤ listMax ((p :: ps).map (fun q => q.predicted_value)) →
          listMax ((p :: ps).map (fun q => q.predicted_value)) < 1.2 →
          (calculateFloodRisk (p :: ps)).risk_level = "low")
      ∧ ((calculateFloodRisk (p :: ps)).risk_level = "low" →
          0.8 ≤ listMax ((p :: ps).map (fun q => q.predicted_value))
            ∧ listMax ((p :: ps).map (fun q => q.predicted_value)) < 1.2)
      ∧ ((calculateFloodRisk (p :: ps)).risk_level = "low" →
          (calculateFloodRisk (p :: ps)).confidence = 60)
      ∧ (listMax ((p :: ps).map (fun q => q.predicted_value)) < 0.8 →
          (calculateFloodRisk (p :: ps)).risk_level = "minimal")
      ∧ ((calculateFloodRisk (p :: ps)).risk_level = "minimal" →
          listMax ((p :: ps).map (fun q => q.predicted_value)) < 0.8)
      ∧ ((calculateFloodRisk (p :: ps)).risk_level = "minimal" →
          (calculateFloodRisk (p :: ps)).confidence = 90))
    ∧ calculateFloodRisk [] = ⟨"unknown", 0, 0, false⟩ := by
  refine ⟨?_, rfl⟩
  intro p ps
  have hmax := listMax_spec p.predicted_value (ps.map (fun q => q.predicted_value))
  have hrl : (calculateFloodRisk (p :: ps)).risk_level =
      (if listMax ((p :: ps).map (fun q => q.predicted_value)) ≥ 2.0 then "critical"
       else if listMax ((p :: ps).map (fun q => q.predicted_value)) ≥ 1.5 then "high"
       else if listMax ((p :: ps).map (fun q => q.predicted_value)) ≥ 1.2 then "medium"
       else if listMax ((p :: ps).map (fun q => q.predicted_value)) ≥ 0.8 then "low"
       else "minimal") := by
    show (let maxValue := listMax ((p :: ps).map (fun q => q.predicted_value));
      let levelConf : String × ℚ :=
        if maxValue ≥ 2.0 then ("critical", 95)
        else if maxValue ≥ 1.5 then ("high", 85)
        else if maxValue ≥ 1.2 then ("medium", 70)
        else if maxValue ≥ 0.8 then ("low", 60)
        else ("minimal", 90);
      (⟨levelConf.1, levelConf.2, pyRound maxValue 3,
        decide (maxValue > 0.8)⟩ : FloodRisk)).risk_level = _
    simp only
    split_ifs <;> rfl
  have hcf : (calculateFloodRisk (p :: ps)).confidence =
      (if listMax ((p :: ps).map (fun q => q.predicted_value)) ≥ 2.0 then (95 : ℚ)
       else if listMax ((p :: ps).map (fun q => q.predicted_value)) ≥ 1.5 then 85
       else if listMax ((p :: ps).map (fun q => q.predicted_value)) ≥ 1.2 then 70
       else if listMax ((p :: ps).map (fun q => q.predicted_value)) ≥ 0.8 then 60
       else 90) := by
    show (let maxValue := listMax ((p :: ps).map (fun q => q.predicted_value));
      let levelConf : String × ℚ :=
        if maxValue ≥ 2.0 then ("critical", 95)
        else if maxValue ≥ 1.5 then ("high", 85)
        else if maxValue ≥ 1.2 then ("medium", 70)
        else if maxValue ≥ 0.8 then ("low", 60)
        else ("minimal", 90);
      (⟨levelConf.1, levelConf.2, pyRound maxValue 3,
        decide (maxValue > 0.8)⟩ : FloodRisk)).confidence = _
    simp only
    split_ifs <;> rfl
  have hmapeq : (p :: ps).map (fun q => q.predicted_value) =
      p.predicted_value :: ps.map (fun q => q.predicted_value) := rfl
  rw [hmapeq] at hrl hcf ⊢
  refine ⟨hmax, ?_⟩
  rw [hrl, hcf]
  split_ifs with h1 h2 h3 h4 <;>
    refine ⟨?_, ?_, ?_, ?_, ?_, ?_, ?_, ?_, ?_, ?_, ?_, ?_, ?_, ?_, ?_⟩ <;>
    first
    | rfl
    | (intro hx
       first
       | rfl
       | exact absurd hx (by decide)
       | linarith
       | exact ⟨by linarith, by linarith⟩
       | (intro hy
          first
          | rfl
          | linarith))

/-- Concrete instantiation of the C2 theorem at a tier boundary: a single
forecast point with predicted value exactly 0.8 maps to the low tier (not
minimal) with confidence 60. -/
theorem calculateFloodRisk_spec_witness :
    (calculateFloodRisk [⟨0, 0.8, 0.7, 0.9⟩]).risk_level = "low"
      ∧ (calculateFloodRisk [⟨0, 0.8, 0.7, 0.9⟩]).confidence = 60 := by
  have h := calculateFloodRisk_spec.1 ⟨0, 0.8, 0.7, 0.9⟩ []
  have hlow : (calculateFloodRisk [⟨0, 0.8, 0.7, 0.9⟩]).risk_level = "low" :=
    h.2.2.2.2.2.2.2.2.2.2.1 (by with_unfolding_all decide) (by with_unfolding_all decide)
  exact ⟨hlow, h.2.2.2.2.2.2.2.2.2.2.2.2.1 hlow⟩

/- Section: Forecaster prediction (predict_water_levels, app.py lines 270-305).
The Prophet library itself (model.make_future_dataframe and model.predict) is
external to the repository; the theorem takes its output as a parameter and
assumes, per the spec contract for the Forecaster, that it yields one row per
future-dataframe row (history length + horizon), in chronological order, with
yhat_lower <= yhat <= yhat_upper. -/

/-- One row of the Prophet forecast dataframe: ds, yhat, yhat_lower, yhat_upper. -/
structure ProphetRow where
  ds : ℚ
  yhat : ℚ
  yhat_lower : ℚ
  yhat_upper : ℚ
deriving DecidableEq

/-- Embedding of the result-formatting part of predict_water_levels:
forecast.tail(hours_ahead) followed by rounding each of yhat, yhat_lower,
yhat_upper to 3 digits (app.py lines 284-295). -/
def predictWaterLevels (forecast : List ProphetRow) (hoursAhead : ℕ) : List ForecastPoint :=
  (forecast.drop (forecast.length - hoursAhead)).map
    (fun r => ⟨r.ds, pyRound r.yhat 3, pyRound r.yhat_lower 3, pyRound r.yhat_upper 3⟩)

/-- Claim C3: for every horizon h in [1, 168], if the Prophet forecast has
one row per input row (history length plus h), is chronologically ordered
and has well-ordered uncertainty bounds, then predict_water_levels returns
exactly h points, in chronological order, each with
lower_bound <= predicted_value <= upper_bound. -/
theorem predictWaterLevels_spec (histLen h : ℕ) (forecast : List ProphetRow)
    (h1 : 1 ≤ h) (h168 : h ≤ 168)
    (hlen : forecast.length = histLen + h)
    (hord : forecast.Chain' (fun a b => a.ds ≤ b.ds))
    (hbounds : ∀ r ∈ forecast, r.yhat_lower ≤ r.yhat ∧ r.yhat ≤ r.yhat_upper) :
    (predictWaterLevels forecast h).length = h
      ∧ (predictWaterLevels forecast h).Chain' (fun a b => a.ts ≤ b.ts)
      ∧ ∀ q ∈ predictWaterLevels forecast h,
          q.lower_bound ≤ q.predicted_value ∧ q.predicted_value ≤ q.upper_bound := by
  unfold predictWaterLevels
  refine ⟨?_, ?_, ?_⟩
  · rw [List.length_map, List.length_drop, hlen]
    omega
  · rw [List.chain'_map]
    exact (hord.drop _)
  · intro q hq
    rcases List.mem_map.mp hq with ⟨r, hr, hq⟩
    rcases hbounds r (List.mem_of_mem_drop hr) with ⟨hl, hu⟩
    subst hq
    exact ⟨pyRound_mono 3 hl, pyRound_mono 3 hu⟩

/-- Concrete instantiation of the C3 theorem at horizon 1 with a singleton
Prophet forecast. -/
theorem predictWaterLevels_spec_witness :
    (1 ≤ 1 ∧ 1 ≤ 168
        ∧ ([(⟨0, 1, 0, 2⟩ : ProphetRow)]).length = 0 + 1
        ∧ ([(⟨0, 1, 0, 2⟩ : ProphetRow)]).Chain' (fun a b => a.ds ≤ b.ds)
        ∧ ∀ r ∈ [(⟨0, 1, 0, 2⟩ : ProphetRow)], r.yhat_lower ≤ r.yhat ∧ r.yhat ≤ r.yhat_upper)
      ∧ ((predictWaterLevels [⟨0, 1, 0, 2⟩] 1).length = 1
        ∧ (predictWaterLevels [⟨0, 1, 0, 2⟩] 1).Chain' (fun a b => a.ts ≤ b.ts)
        ∧ ∀ q ∈ predictWaterLevels [⟨0, 1, 0, 2⟩] 1,
            q.lower_bound ≤ q.predicted_value ∧ q.predicted_value ≤ q.upper_bound) :=
  ⟨⟨by decide, by decide, by decide, List.chain'_singleton _, by decide⟩,
    predictWaterLevels_spec 0 1 [⟨0, 1, 0, 2⟩] (by decide) (by decide) (by decide)
      (List.chain'_singleton _) (by decide)⟩

/- Section: error taxonomy for the embedded Python exceptions. -/

/-- Python exceptions raised by the ML-service paths modelled here. -/
inductive MLErr where
  | valueErr (msg : String)
  | notFitted (what : String)
  | indexErr
  | nameErr (n : String)
deriving DecidableEq

/- Section: Threat Classifier state (classify_threat_severity, app.py lines
467-514, and _initialize_models, lines 59-77).  The fitted decision tree and
scaler are represented by their Python object attributes (Option Unit: none
models the attribute being None, hence falsy; some models a bound estimator
object, which in Python is truthy whether or not it has been fitted) together
with fitted flags. -/

/-- The classifier-related attributes of CoastalThreatML. -/
structure ThreatModelState where
  classifierObj : Option Unit
  scalerObj : Option Unit
  classifierFitted : Bool
  scalerFitted : Bool
deriving DecidableEq

/-- State after __init__/_initialize_models on a fresh service with no saved
model files: threat_classifier and classifier_scaler are bound to newly
constructed (unfitted) estimator objects. -/
def initializeModels : ThreatModelState := ⟨some (), some (), false, false⟩

/-- Effect of train_threat_classifier on the classifier state: fits the
scaler and the classifier (on synthetic data when fewer than 20 real
examples are supplied). -/
def trainThreatClassifierFit (st : ThreatModelState) : ThreatModelState :=
  ⟨st.classifierObj, st.scalerObj, true, true⟩

/-- The five numeric input features of the Threat Classifier. -/
structure ConditionFeatures where
  water_level : ℚ
  wind_speed : ℚ
  rainfall : ℚ
  temperature : ℚ
  pressure : ℚ
deriving DecidableEq

/-- A classify request: every field optional (dict.get with defaults). -/
structure ClassifyInput where
  water_level : Option ℚ
  wind_speed : Option ℚ
  rainfall : Option ℚ
  temperature : Option ℚ
  pressure : Option ℚ
deriving DecidableEq

/-- The feature-default step of classify_threat_severity (app.py lines 475-481). -/
def classifyInputFeatures (c : ClassifyInput) : ConditionFeatures :=
  ⟨c.water_level.getD 0.5, c.wind_speed.getD 5.0, c.rainfall.getD 0.0,
   c.temperature.getD 25.0, c.pressure.getD 1013.0⟩

/-- The response dict of classify_threat_severity. -/
structure ThreatClassification where
  predicted_threat_level : String
  confidence : ℚ
  probabilities : List (String × ℚ)
  input_features : ConditionFeatures
deriving DecidableEq

/-- Embedding of classify_threat_severity (app.py lines 467-514).  The fitted
decision tree's predict/predict_proba pair is abstracted as clf.  The guard on
line 470 tests Python truthiness of the estimator attributes (isNone), and
classifier_scaler.transform on line 487 raises NotFittedError when the scaler
has never been fitted. -/
def classifyThreatSeverity (clf : ConditionFeatures → String × List (String × ℚ))
    (st : ThreatModelState) (cond : ClassifyInput) :
    Except MLErr (ThreatModelState × ThreatClassification) :=
  let st1 := if st.classifierObj.isNone || st.scalerObj.isNone
    then trainThreatClassifierFit st else st
  if st1.scalerFitted = false then .error (.notFitted "StandardScaler")
  else if st1.classifierFitted = false then .error (.notFitted "DecisionTreeClassifier")
  else
    let features := classifyInputFeatures cond
    let pr := clf features
    .ok (st1,
      ⟨pr.1, pyRound (listMax (pr.2.map (fun kv => kv.2)) * 100) 1,
        pr.2.map (fun kv => (kv.1, pyRound kv.2 3)), features⟩)

/-- Claim C4 (refuted by the code): on a fresh service, a classify call with
no prior training does NOT bootstrap-train; the truthiness guard on the
estimator attributes never fires (unfitted estimator objects are truthy), so
the unfitted scaler's transform raises NotFittedError and classification
fails, whatever the model and whatever the request. -/
theorem classifyThreatSeverity_unfitted_fails
    (clf : ConditionFeatures → String × List (String × ℚ)) (cond : ClassifyInput) :
    classifyThreatSeverity clf initializeModels cond = .error (.notFitted "StandardScaler") :=
  rfl

/- Section: Feature Builder and Forecaster training (train_models, app.py
lines 165-212; _prepare_data_for_prophet, lines 138-163; and
_train_anomaly_detector, lines 214-268). -/

/-- A parsed timestamp: its sortable instant together with the derived
hour-of-day, day-of-week and month fields that pandas dt accessors produce. -/
structure Timestamp where
  ds : ℚ
  hour : ℚ
  dow : ℚ
  month : ℚ
deriving DecidableEq

/-- One row of a per-sensor training dataframe after timestamp parsing and
column renaming: ds plus an optional y value (none models NaN). -/
structure RawPoint where
  ts : Timestamp
  value : Option ℚ
deriving DecidableEq

/-- Insert for the ascending sort on ds of _prepare_data_for_prophet. -/
def insertByDs (p : RawPoint) : List RawPoint → List RawPoint
  | [] => [p]
  | q :: qs => if p.ts.ds ≤ q.ts.ds then p :: q :: qs else q :: insertByDs p qs

/-- df.sort_values of _prepare_data_for_prophet, as an insertion sort on ds. -/
def sortByDs : List RawPoint → List RawPoint
  | [] => []
  | p :: ps => insertByDs p (sortByDs ps)

/-- df.drop_duplicates(subset=ds): keep the first row of each distinct ds. -/
def dedupByDs (seen : List ℚ) : List RawPoint → List RawPoint
  | [] => []
  | p :: ps =>
    if p.ts.ds ∈ seen then dedupByDs seen ps
    else p :: dedupByDs (p.ts.ds :: seen) ps

/-- Embedding of _prepare_data_for_prophet (app.py lines 138-163): sort by ds
ascending, drop duplicate ds, drop rows with missing values. -/
def prepareDataForProphet (data : List RawPoint) : List RawPoint :=
  (dedupByDs [] (sortByDs data)).filter (fun p => p.value.isSome)

/-- Python min() over a list of values; only used on nonempty lists. -/
def listMin : List ℚ → ℚ
  | [] => 0
  | x :: xs => xs.foldl min x

/-- The per-sensor entry of the train_models results dict. -/
structure TrainResult where
  status : String
  data_points : ℕ
  range_start : ℚ
  range_end : ℚ
deriving DecidableEq

/-- The fixed sensor-type encoding; unknown types map to none (NaN). -/
def typeEncoding (t : String) : Option ℚ :=
  if t = "water_level" then some 0
  else if t = "wind" then some 1
  else if t = "rainfall" then some 2
  else none

/-- The model-bearing state of CoastalThreatML relevant to train_models:
the keys of self.models, the fitted Prophet state per sensor type
(represented by the prepared dataframe it was fitted on), and the jointly
fitted anomaly detector / scaler pair (represented by the pooled feature
rows they were fitted on). -/
structure MLState where
  modelKeys : List String
  fitted : List (String × List RawPoint)
  anomalyFitted : Option (List (String × RawPoint))
deriving DecidableEq

/-- Association-list overwrite used to model assigning a fitted model. -/
def updateFitted (fitted : List (String × List RawPoint)) (k : String)
    (v : List RawPoint) : List (String × List RawPoint) :=
  match fitted with
  | [] => [(k, v)]
  | e :: rest => if e.1 = k then (k, v) :: rest else e :: updateFitted rest k v

/-- Embedding of _train_anomaly_detector (app.py lines 214-268): pools all
sensor data, no-ops below 50 pooled points, drops rows whose value is missing
or whose sensor type is unknown, no-ops again below 50 feature rows, else
fits the scaler and the IsolationForest on the remaining rows. -/
def trainAnomalyDetector (st : MLState) (sensorData : List (String × List RawPoint)) :
    MLState :=
  let allData := sensorData.flatMap (fun e => e.2.map (fun r => (e.1, r)))
  if allData.length < 50 then st
  else
    let X := allData.filter (fun tr => tr.2.value.isSome && (typeEncoding tr.1).isSome)
    if X.length < 50 then st
    else ⟨st.modelKeys, st.fitted, some X⟩

/-- One iteration of the sensor loop in train_models (app.py lines 170-203):
unknown sensor types, empty data, and prepared dataframes with fewer than 10
points are skipped with a logged warning; otherwise the model is fitted and a
results entry is appended. -/
def trainModelsStep (acc : MLState × List (String × TrainResult))
    (entry : String × List RawPoint) : MLState × List (String × TrainResult) :=
  if entry.1 ∈ acc.1.modelKeys then
    if entry.2 = [] then acc
    else
      let df := prepareDataForProphet entry.2
      if df.length < 10 then acc
      else
        (⟨acc.1.modelKeys, updateFitted acc.1.fitted entry.1 df, acc.1.anomalyFitted⟩,
          acc.2 ++ [(entry.1,
            ⟨"trained", df.length, listMin (df.map (fun p => p.ts.ds)),
              listMax (df.map (fun p => p.ts.ds))⟩)])
  else acc

/-- Embedding of train_models (app.py lines 165-212): fold the sensor loop
over the request entries, then train the anomaly detector; no exception is
raised on the insufficient-data path. -/
def trainModels (st : MLState) (sensorData : List (String × List RawPoint)) :
    Except MLErr (MLState × List (String × TrainResult)) :=
  let res := sensorData.foldl trainModelsStep (st, [])
  .ok (trainAnomalyDetector res.1 sensorData, res.2)

theorem trainAnomalyDetector_preserves (st : MLState)
    (d : List (String × List RawPoint)) :
    (trainAnomalyDetector st d).fitted = st.fitted
      ∧ (trainAnomalyDetector st d).modelKeys = st.modelKeys := by
  unfold trainAnomalyDetector
  dsimp only
  split_ifs <;> exact ⟨rfl, rfl⟩

/-- A previously fitted service state for the three sensor types. -/
def stC5 : MLState :=
  ⟨["water_level", "wind", "rainfall"], [("water_level", [⟨⟨0, 0, 0, 1⟩, some 1⟩])], none⟩

/-- A water-level history with only 5 usable points. -/
def smallHistory : List RawPoint :=
  [⟨⟨0, 0, 0, 1⟩, some 1⟩, ⟨⟨1, 1, 0, 1⟩, some 1⟩, ⟨⟨2, 2, 0, 1⟩, some 1⟩,
   ⟨⟨3, 3, 0, 1⟩, some 1⟩, ⟨⟨4, 4, 0, 1⟩, some 1⟩]

/-- Counterexample to claim C5 as stated: training on a 5-point history does
not raise InsufficientDataError (or any error); train_models returns normally
with an empty results dict and the state unchanged. -/
theorem trainModels_small_history_no_error :
    trainModels stC5 [("water_level", smallHistory)] = .ok (stC5, []) := rfl

/-- Claim C5 as amended: a history with fewer than 10 usable points after
cleaning makes train_models skip that sensor with only a logged warning --
the call returns successfully, the results dict has no entry for the sensor,
and the previously fitted forecaster state is unchanged. -/
theorem trainModels_insufficient_skips (st : MLState) (s : String) (data : List RawPoint)
    (hmem : s ∈ st.modelKeys) (hlen : (prepareDataForProphet data).length < 10) :
    ∃ st2, trainModels st [(s, data)] = .ok (st2, [])
      ∧ st2.fitted = st.fitted ∧ st2.modelKeys = st.modelKeys := by
  have hstep : trainModelsStep (st, []) (s, data) = (st, []) := by
    unfold trainModelsStep
    by_cases hd : data = []
    · simp [hmem, hd]
    · simp [hmem, hd, if_pos hlen]
  refine ⟨trainAnomalyDetector st [(s, data)], ?_,
    (trainAnomalyDetector_preserves st [(s, data)]).1,
    (trainAnomalyDetector_preserves st [(s, data)]).2⟩
  unfold trainModels
  rw [List.foldl_cons, hstep, List.foldl_nil]

/-- Concrete instantiation of the amended C5 theorem on the 5-point history. -/
theorem trainModels_insufficient_skips_witness :
    ("water_level" ∈ stC5.modelKeys ∧ (prepareDataForProphet smallHistory).length < 10)
      ∧ ∃ st2, trainModels stC5 [("water_level", smallHistory)] = .ok (st2, [])
          ∧ st2.fitted = stC5.fitted ∧ st2.modelKeys = stC5.modelKeys :=
  ⟨⟨by decide, by decide⟩,
    trainModels_insufficient_skips stC5 "water_level" smallHistory (by decide) (by decide)⟩

/- Section: Anomaly detection (detect_anomalies, app.py lines 352-406). -/

/-- One row of the anomaly-detection request dataframe. -/
structure SensorReadingRow where
  ts : Timestamp
  type : String
  value : Option ℚ
  location : Option String
deriving DecidableEq

/-- One feature row of X = df[features].dropna(). -/
structure FeatureRow where
  value : ℚ
  hour : ℚ
  day_of_week : ℚ
  month : ℚ
  type_encoded : ℚ
deriving DecidableEq

/-- The feature derivation for one dataframe row; none models a row that
dropna removes (missing value, or unknown sensor type encoded to NaN). -/
def featureOf (r : SensorReadingRow) : Option FeatureRow :=
  match r.value, typeEncoding r.type with
  | some v, some c => some ⟨v, r.ts.hour, r.ts.dow, r.ts.month, c⟩
  | _, _ => none

/-- One emitted anomaly dict (app.py lines 392-400). -/
structure AnomalyRecord where
  ts : Timestamp
  sensor_type : String
  value : Option ℚ
  anomaly_score : ℚ
  severity : String
  location : String
  description : String
deriving DecidableEq

/-- The fitted IsolationForest together with its co-trained scaler:
decision_function and the outlier verdict (predict == -1) per scaled row. -/
structure AnomalyScorer where
  score : FeatureRow → ℚ
  isOutlier : FeatureRow → Bool

/-- The anomaly dict built for row r with score sc: severity is high iff the
score is below -0.5, else medium. -/
def mkAnomalyRecord (r : SensorReadingRow) (sc : ℚ) : AnomalyRecord :=
  ⟨r.ts, r.type, r.value, pyRound sc 3,
    if sc < -0.5 then "high" else "medium",
    r.location.getD "unknown", "Anomalous " ++ r.type ++ " reading"⟩

/-- The emission loop of detect_anomalies (app.py lines 389-400): it
enumerates ALL dataframe rows while indexing into the prediction and score
arrays computed on the dropna-filtered feature matrix; an out-of-range index
is Python's IndexError. -/
def anomalyEmitLoop (scores : List ℚ) (preds : List Bool) :
    List SensorReadingRow → ℕ → Except MLErr (List AnomalyRecord)
  | [], _ => .ok []
  | r :: rest, i =>
    match preds[i]? with
    | none => .error .indexErr
    | some isOut =>
      if isOut then
        match scores[i]? with
        | none => .error .indexErr
        | some sc =>
          match anomalyEmitLoop scores preds rest (i + 1) with
          | .error e => .error e
          | .ok tail => .ok (mkAnomalyRecord r sc :: tail)
      else anomalyEmitLoop scores preds rest (i + 1)

/-- Embedding of detect_anomalies (app.py lines 352-406).  available models
the truthiness of self.anomaly_detector and self.scaler on line 355. -/
def detectAnomalies (available : Bool) (scorer : AnomalyScorer)
    (sensorData : List SensorReadingRow) : Except MLErr (List AnomalyRecord) :=
  if available = false then .error (.valueErr "Anomaly detection model not available")
  else if sensorData = [] then .ok []
  else
    let X := sensorData.filterMap featureOf
    if X.length < 1 then .ok []
    else
      anomalyEmitLoop (X.map scorer.score) (X.map scorer.isOutlier) sensorData 0

/-- A well-formed water-level reading. -/
def goodReading : SensorReadingRow := ⟨⟨0, 0, 0, 1⟩, "water_level", some 1, none⟩

/-- A reading whose sensor type is unknown to the type encoding, so its
feature row is dropped by dropna. -/
def unknownTypeReading : SensorReadingRow := ⟨⟨1, 1, 0, 1⟩, "temperature", some 2, none⟩

/-- Claim C6 (refuted by the code): a batch containing a reading with an
unknown sensor type does not merely exclude that reading -- the emission loop
enumerates every dataframe row but indexes prediction arrays computed on the
filtered feature matrix, so the whole batch fails with IndexError, whatever
the fitted scorer says. -/
theorem detectAnomalies_dropped_row_fails (scorer : AnomalyScorer) :
    detectAnomalies true scorer [goodReading, unknownTypeReading] = .error .indexErr := by
  have hX : ([goodReading, unknownTypeReading].filterMap featureOf)
      = [⟨1, 0, 0, 1, 0⟩] := rfl
  unfold detectAnomalies
  rw [if_neg (by decide), if_neg (by decide)]
  dsimp only
  rw [hX, if_neg (by decide)]
  unfold anomalyEmitLoop
  cases hb : scorer.isOutlier ⟨1, 0, 0, 1, 0⟩ <;>
    simp [hb, anomalyEmitLoop, List.getElem?_cons_zero, List.getElem?_cons_succ]

/- Section: synthetic training data (_generate_synthetic_training_data,
app.py lines 516-561). -/

/-- One labelled synthetic training sample. -/
structure TrainingSample where
  water_level : ℚ
  wind_speed : ℚ
  rainfall : ℚ
  temperature : ℚ
  pressure : ℚ
  threat_level : String
deriving DecidableEq

/-- A stream of unit uniform variates indexed by draw position. -/
abbrev RngStream := ℕ → ℚ

/-- Modelled from the spec: the state of numpy's global random generator
after np.random.seed(seed).  numpy itself is outside the repository; the
only properties relied on are that seeding makes the subsequent draws a
fixed function of the seed alone and that every unit draw lies in [0, 1).
A concrete executable stream with those properties stands in for the
Mersenne Twister. -/
def numpySeededStream (seed : ℕ) : RngStream :=
  fun i => (((seed + 1) * (i + 1) * 2654435761 % 1000000 : ℕ) : ℚ) / 1000000

/-- np.random.uniform(a, b) applied to the unit draw u. -/
def npUniform (u a b : ℚ) : ℚ := a + u * (b - a)

/-- The threat_levels list the generator iterates over. -/
def threatLevels : List String := ["low", "medium", "high", "critical"]

/-- One synthetic sample for the given threat level from five unit draws,
using the per-class uniform ranges and rounding of app.py lines 527-559. -/
def syntheticSample (lvl : String) (u1 u2 u3 u4 u5 : ℚ) : TrainingSample :=
  if lvl = "low" then
    ⟨pyRound (npUniform u1 0.1 0.7) 2, pyRound (npUniform u2 1 15) 1,
     pyRound (npUniform u3 0 10) 1, pyRound (npUniform u4 20 30) 1,
     pyRound (npUniform u5 1010 1020) 1, lvl⟩
  else if lvl = "medium" then
    ⟨pyRound (npUniform u1 0.6 1.1) 2, pyRound (npUniform u2 10 25) 1,
     pyRound (npUniform u3 5 40) 1, pyRound (npUniform u4 18 32) 1,
     pyRound (npUniform u5 1005 1015) 1, lvl⟩
  else if lvl = "high" then
    ⟨pyRound (npUniform u1 1.0 1.6) 2, pyRound (npUniform u2 20 35) 1,
     pyRound (npUniform u3 30 80) 1, pyRound (npUniform u4 15 35) 1,
     pyRound (npUniform u5 995 1010) 1, lvl⟩
  else
    ⟨pyRound (npUniform u1 1.5 3.0) 2, pyRound (npUniform u2 30 60) 1,
     pyRound (npUniform u3 60 150) 1, pyRound (npUniform u4 10 40) 1,
     pyRound (npUniform u5 980 1000) 1, lvl⟩

/-- The 400 samples drawn from a given unit-draw stream: threat levels in
order, 100 samples per level, five sequential draws per sample in feature
order. -/
def syntheticSamples (g : RngStream) : List TrainingSample :=
  (List.range 4).flatMap (fun li =>
    (List.range 100).map (fun j =>
      syntheticSample (threatLevels.getD li "critical")
        (g (li * 500 + j * 5)) (g (li * 500 + j * 5 + 1)) (g (li * 500 + j * 5 + 2))
        (g (li * 500 + j * 5 + 3)) (g (li * 500 + j * 5 + 4))))

/-- Embedding of _generate_synthetic_training_data (app.py lines 516-561):
np.random.seed(42) replaces the incoming global generator state, so the
output does not depend on it. -/
def generateSyntheticTrainingData (_g : RngStream) : List TrainingSample :=
  syntheticSamples (numpySeededStream 42)

/-- Decidable check that a sample's five features lie inside the per-class
uniform ranges its threat level prescribes. -/
def sampleInRanges (s : TrainingSample) : Bool :=
  if s.threat_level = "low" then
    decide (0.1 ≤ s.water_level ∧ s.water_level ≤ 0.7 ∧ 1 ≤ s.wind_speed ∧ s.wind_speed ≤ 15
      ∧ 0 ≤ s.rainfall ∧ s.rainfall ≤ 10 ∧ 20 ≤ s.temperature ∧ s.temperature ≤ 30
      ∧ 1010 ≤ s.pressure ∧ s.pressure ≤ 1020)
  else if s.threat_level = "medium" then
    decide (0.6 ≤ s.water_level ∧ s.water_level ≤ 1.1 ∧ 10 ≤ s.wind_speed ∧ s.wind_speed ≤ 25
      ∧ 5 ≤ s.rainfall ∧ s.rainfall ≤ 40 ∧ 18 ≤ s.temperature ∧ s.temperature ≤ 32
      ∧ 1005 ≤ s.pressure ∧ s.pressure ≤ 1015)
  else if s.threat_level = "high" then
    decide (1.0 ≤ s.water_level ∧ s.water_level ≤ 1.6 ∧ 20 ≤ s.wind_speed ∧ s.wind_speed ≤ 35
      ∧ 30 ≤ s.rainfall ∧ s.rainfall ≤ 80 ∧ 15 ≤ s.temperature ∧ s.temperature ≤ 35
      ∧ 995 ≤ s.pressure ∧ s.pressure ≤ 1010)
  else if s.threat_level = "critical" then
    decide (1.5 ≤ s.water_level ∧ s.water_level ≤ 3.0 ∧ 30 ≤ s.wind_speed ∧ s.wind_speed ≤ 60
      ∧ 60 ≤ s.rainfall ∧ s.rainfall ≤ 150 ∧ 10 ≤ s.temperature ∧ s.temperature ≤ 40
      ∧ 980 ≤ s.pressure ∧ s.pressure ≤ 1000)
  else false

theorem numpySeededStream_unit (seed i : ℕ) :
    0 ≤ numpySeededStream seed i ∧ numpySeededStream seed i < 1 := by
  unfold numpySeededStream
  constructor
  · positivity
  · rw [div_lt_one (by norm_num)]
    have h : ((seed + 1) * (i + 1) * 2654435761 % 1000000 : ℕ) < 1000000 :=
      Nat.mod_lt _ (by norm_num)
    exact_mod_cast h

theorem npUniform_bounds {u a b : ℚ} (h0 : 0 ≤ u) (h1 : u < 1) (hab : a ≤ b) :
    a ≤ npUniform u a b ∧ npUniform u a b ≤ b := by
  unfold npUniform
  constructor
  · nlinarith
  · nlinarith

theorem pyRound_npUniform_mem {u a b : ℚ} {n : ℕ} (hu0 : 0 ≤ u) (hu1 : u < 1)
    (hab : a ≤ b) (ha : pyRound a n = a) (hb : pyRound b n = b) :
    a ≤ pyRound (npUniform u a b) n ∧ pyRound (npUniform u a b) n ≤ b := by
  rcases npUniform_bounds hu0 hu1 hab with ⟨h1, h2⟩
  exact pyRound_range ha hb h1 h2

set_option maxRecDepth 40000 in
theorem sampleInRanges_low (u1 u2 u3 u4 u5 : ℚ)
    (h1a : 0 ≤ u1) (h1b : u1 < 1) (h2a : 0 ≤ u2) (h2b : u2 < 1)
    (h3a : 0 ≤ u3) (h3b : u3 < 1) (h4a : 0 ≤ u4) (h4b : u4 < 1)
    (h5a : 0 ≤ u5) (h5b : u5 < 1) :
    sampleInRanges (syntheticSample "low" u1 u2 u3 u4 u5) = true := by
  have e1 := pyRound_npUniform_mem h1a h1b (show (0.1:ℚ) ≤ 0.7 by norm_num)
    (show pyRound 0.1 2 = 0.1 by with_unfolding_all decide)
    (show pyRound 0.7 2 = 0.7 by with_unfolding_all decide)
  have e2 := pyRound_npUniform_mem h2a h2b (show (1:ℚ) ≤ 15 by norm_num)
    (show pyRound 1 1 = 1 by with_unfolding_all decide)
    (show pyRound 15 1 = 15 by with_unfolding_all decide)
  have e3 := pyRound_npUniform_mem h3a h3b (show (0:ℚ) ≤ 10 by norm_num)
    (show pyRound 0 1 = 0 by with_unfolding_all decide)
    (show pyRound 10 1 = 10 by with_unfolding_all decide)
  have e4 := pyRound_npUniform_mem h4a h4b (show (20:ℚ) ≤ 30 by norm_num)
    (show pyRound 20 1 = 20 by with_unfolding_all decide)
    (show pyRound 30 1 = 30 by with_unfolding_all decide)
  have e5 := pyRound_npUniform_mem h5a h5b (show (1010:ℚ) ≤ 1020 by norm_num)
    (show pyRound 1010 1 = 1010 by with_unfolding_all decide)
    (show pyRound 1020 1 = 1020 by with_unfolding_all decide)
  show decide ((0.1:ℚ) ≤ pyRound (npUniform u1 0.1 0.7) 2
      ∧ pyRound (npUniform u1 0.1 0.7) 2 ≤ 0.7
      ∧ (1:ℚ) ≤ pyRound (npUniform u2 1 15) 1
      ∧ pyRound (npUniform u2 1 15) 1 ≤ 15
      ∧ (0:ℚ) ≤ pyRound (npUniform u3 0 10) 1
      ∧ pyRound (npUniform u3 0 10) 1 ≤ 10
      ∧ (20:ℚ) ≤ pyRound (npUniform u4 20 30) 1
      ∧ pyRound (npUniform u4 20 30) 1 ≤ 30
      ∧ (1010:ℚ) ≤ pyRound (npUniform u5 1010 1020) 1
      ∧ pyRound (npUniform u5 1010 1020) 1 ≤ 1020) = true
  exact decide_eq_true ⟨e1.1, e1.2, e2.1, e2.2, e3.1, e3.2, e4.1, e4.2, e5.1, e5.2⟩

set_option maxRecDepth 40000 in
theorem sampleInRanges_medium (u1 u2 u3 u4 u5 : ℚ)
    (h1a : 0 ≤ u1) (h1b : u1 < 1) (h2a : 0 ≤ u2) (h2b : u2 < 1)
    (h3a : 0 ≤ u3) (h3b : u3 < 1) (h4a : 0 ≤ u4) (h4b : u4 < 1)
    (h5a : 0 ≤ u5) (h5b : u5 < 1) :
    sampleInRanges (syntheticSample "medium" u1 u2 u3 u4 u5) = true := by
  have e1 := pyRound_npUniform_mem h1a h1b (show (0.6:ℚ) ≤ 1.1 by norm_num)
    (show pyRound 0.6 2 = 0.6 by with_unfolding_all decide)
    (show pyRound 1.1 2 = 1.1 by with_unfolding_all decide)
  have e2 := pyRound_npUniform_mem h2a h2b (show (10:ℚ) ≤ 25 by norm_num)
    (show pyRound 10 1 = 10 by with_unfolding_all decide)
    (show pyRound 25 1 = 25 by with_unfolding_all decide)
  have e3 := pyRound_npUniform_mem h3a h3b (show (5:ℚ) ≤ 40 by norm_num)
    (show pyRound 5 1 = 5 by with_unfolding_all decide)
    (show pyRound 40 1 = 40 by with_unfolding_all decide)
  have e4 := pyRound_npUniform_mem h4a h4b (show (18:ℚ) ≤ 32 by norm_num)
    (show pyRound 18 1 = 18 by with_unfolding_all decide)
    (show pyRound 32 1 = 32 by with_unfolding_all decide)
  have e5 := pyRound_npUniform_mem h5a h5b (show (1005:ℚ) ≤ 1015 by norm_num)
    (show pyRound 1005 1 = 1005 by with_unfolding_all decide)
    (show pyRound 1015 1 = 1015 by with_unfolding_all decide)
  show decide ((0.6:ℚ) ≤ pyRound (npUniform u1 0.6 1.1) 2
      ∧ pyRound (npUniform u1 0.6 1.1) 2 ≤ 1.1
      ∧ (10:ℚ) ≤ pyRound (npUniform u2 10 25) 1
      ∧ pyRound (npUniform u2 10 25) 1 ≤ 25
      ∧ (5:ℚ) ≤ pyRound (npUniform u3 5 40) 1
      ∧ pyRound (npUniform u3 5 40) 1 ≤ 40
      ∧ (18:ℚ) ≤ pyRound (npUniform u4 18 32) 1
      ∧ pyRound (npUniform u4 18 32) 1 ≤ 32
      ∧ (1005:ℚ) ≤ pyRound (npUniform u5 1005 1015) 1
      ∧ pyRound (npUniform u5 1005 1015) 1 ≤ 1015) = true
  exact decide_eq_true ⟨e1.1, e1.2, e2.1, e2.2, e3.1, e3.2, e4.1, e4.2, e5.1, e5.2⟩

set_option maxRecDepth 40000 in
theorem sampleInRanges_high (u1 u2 u3 u4 u5 : ℚ)
    (h1a : 0 ≤ u1) (h1b : u1 < 1) (h2a : 0 ≤ u2) (h2b : u2 < 1)
    (h3a : 0 ≤ u3) (h3b : u3 < 1) (h4a : 0 ≤ u4) (h4b : u4 < 1)
    (h5a : 0 ≤ u5) (h5b : u5 < 1) :
    sampleInRanges (syntheticSample "high" u1 u2 u3 u4 u5) = true := by
  have e1 := pyRound_npUniform_mem h1a h1b (show (1.0:ℚ) ≤ 1.6 by norm_num)
    (show pyRound 1.0 2 = 1.0 by with_unfolding_all decide)
    (show pyRound 1.6 2 = 1.6 by with_unfolding_all decide)
  have e2 := pyRound_npUniform_mem h2a h2b (show (20:ℚ) ≤ 35 by norm_num)
    (show pyRound 20 1 = 20 by with_unfolding_all decide)
    (show pyRound 35 1 = 35 by with_unfolding_all decide)
  have e3 := pyRound_npUniform_mem h3a h3b (show (30:ℚ) ≤ 80 by norm_num)
    (show pyRound 30 1 = 30 by with_unfolding_all decide)
    (show pyRound 80 1 = 80 by with_unfolding_all decide)
  have e4 := pyRound_npUniform_mem h4a h4b (show (15:ℚ) ≤ 35 by norm_num)
    (show pyRound 15 1 = 15 by with_unfolding_all decide)
    (show pyRound 35 1 = 35 by with_unfolding_all decide)
  have e5 := pyRound_npUniform_mem h5a h5b (show (995:ℚ) ≤ 1010 by norm_num)
    (show pyRound 995 1 = 995 by with_unfolding_all decide)
    (show pyRound 1010 1 = 1010 by with_unfolding_all decide)
  show decide ((1.0:ℚ) ≤ pyRound (npUniform u1 1.0 1.6) 2
      ∧ pyRound (npUniform u1 1.0 1.6) 2 ≤ 1.6
      ∧ (20:ℚ) ≤ pyRound (npUniform u2 20 35) 1
      ∧ pyRound (npUniform u2 20 35) 1 ≤ 35
      ∧ (30:ℚ) ≤ pyRound (npUniform u3 30 80) 1
      ∧ pyRound (npUniform u3 30 80) 1 ≤ 80
      ∧ (15:ℚ) ≤ pyRound (npUniform u4 15 35) 1
      ∧ pyRound (npUniform u4 15 35) 1 ≤ 35
      ∧ (995:ℚ) ≤ pyRound (npUniform u5 995 1010) 1
      ∧ pyRound (npUniform u5 995 1010) 1 ≤ 1010) = true
  exact decide_eq_true ⟨e1.1, e1.2, e2.1, e2.2, e3.1, e3.2, e4.1, e4.2, e5.1, e5.2⟩

set_option maxRecDepth 40000 in
theorem sampleInRanges_critical (u1 u2 u3 u4 u5 : ℚ)
    (h1a : 0 ≤ u1) (h1b : u1 < 1) (h2a : 0 ≤ u2) (h2b : u2 < 1)
    (h3a : 0 ≤ u3) (h3b : u3 < 1) (h4a : 0 ≤ u4) (h4b : u4 < 1)
    (h5a : 0 ≤ u5) (h5b : u5 < 1) :
    sampleInRanges (syntheticSample "critical" u1 u2 u3 u4 u5) = true := by
  have e1 := pyRound_npUniform_mem h1a h1b (show (1.5:ℚ) ≤ 3.0 by norm_num)
    (show pyRound 1.5 2 = 1.5 by with_unfolding_all decide)
    (show pyRound 3.0 2 = 3.0 by with_unfolding_all decide)
  have e2 := pyRound_npUniform_mem h2a h2b (show (30:ℚ) ≤ 60 by norm_num)
    (show pyRound 30 1 = 30 by with_unfolding_all decide)
    (show pyRound 60 1 = 60 by with_unfolding_all decide)
  have e3 := pyRound_npUniform_mem h3a h3b (show (60:ℚ) ≤ 150 by norm_num)
    (show pyRound 60 1 = 60 by with_unfolding_all decide)
    (show pyRound 150 1 = 150 by with_unfolding_all decide)
  have e4 := pyRound_npUniform_mem h4a h4b (show (10:ℚ) ≤ 40 by norm_num)
    (show pyRound 10 1 = 10 by with_unfolding_all decide)
    (show pyRound 40 1 = 40 by with_unfolding_all decide)
  have e5 := pyRound_npUniform_mem h5a h5b (show (980:ℚ) ≤ 1000 by norm_num)
    (show pyRound 980 1 = 980 by with_unfolding_all decide)
    (show pyRound 1000 1 = 1000 by with_unfolding_all decide)
  show decide ((1.5:ℚ) ≤ pyRound (npUniform u1 1.5 3.0) 2
      ∧ pyRound (npUniform u1 1.5 3.0) 2 ≤ 3.0
      ∧ (30:ℚ) ≤ pyRound (npUniform u2 30 60) 1
      ∧ pyRound (npUniform u2 30 60) 1 ≤ 60
      ∧ (60:ℚ) ≤ pyRound (npUniform u3 60 150) 1
      ∧ pyRound (npUniform u3 60 150) 1 ≤ 150
      ∧ (10:ℚ) ≤ pyRound (npUniform u4 10 40) 1
      ∧ pyRound (npUniform u4 10 40) 1 ≤ 40
      ∧ (980:ℚ) ≤ pyRound (npUniform u5 980 1000) 1
      ∧ pyRound (npUniform u5 980 1000) 1 ≤ 1000) = true
  exact decide_eq_true ⟨e1.1, e1.2, e2.1, e2.2, e3.1, e3.2, e4.1, e4.2, e5.1, e5.2⟩

theorem syntheticSamples_all_inRanges (g : RngStream) (hg : ∀ i, 0 ≤ g i ∧ g i < 1) :
    (syntheticSamples g).all sampleInRanges = true := by
  rw [List.all_eq_true]
  intro s hs
  unfold syntheticSamples at hs
  rw [List.mem_flatMap] at hs
  rcases hs with ⟨li, hli, hs⟩
  rw [List.mem_map] at hs
  rcases hs with ⟨j, _, rfl⟩
  rw [List.mem_range] at hli
  interval_cases li
  · exact sampleInRanges_low _ _ _ _ _ (hg _).1 (hg _).2 (hg _).1 (hg _).2 (hg _).1 (hg _).2
      (hg _).1 (hg _).2 (hg _).1 (hg _).2
  · exact sampleInRanges_medium _ _ _ _ _ (hg _).1 (hg _).2 (hg _).1 (hg _).2 (hg _).1 (hg _).2
      (hg _).1 (hg _).2 (hg _).1 (hg _).2
  · exact sampleInRanges_high _ _ _ _ _ (hg _).1 (hg _).2 (hg _).1 (hg _).2 (hg _).1 (hg _).2
      (hg _).1 (hg _).2 (hg _).1 (hg _).2
  · exact sampleInRanges_critical _ _ _ _ _ (hg _).1 (hg _).2 (hg _).1 (hg _).2 (hg _).1 (hg _).2
      (hg _).1 (hg _).2 (hg _).1 (hg _).2

set_option maxRecDepth 200000

/-- Claim C8: the synthetic training-data generator emits exactly 100
samples per threat level (400 in total), every sample's five features lie
in the per-class uniform ranges of spec section 6, and because
np.random.seed(42) resets the global generator the output is independent of
the prior RNG state -- two successive bootstrap generations are identical,
and any deterministic train/evaluate pipeline run on them yields identical
held-out accuracy. -/
theorem generateSyntheticTrainingData_spec :
    (∀ g1 g2 : RngStream,
      generateSyntheticTrainingData g1 = generateSyntheticTrainingData g2)
    ∧ (∀ (accuracy : List TrainingSample → ℚ) (g1 g2 : RngStream),
        accuracy (generateSyntheticTrainingData g1) =
          accuracy (generateSyntheticTrainingData g2))
    ∧ (∀ g : RngStream, (generateSyntheticTrainingData g).length = 400)
    ∧ (∀ g : RngStream,
        (generateSyntheticTrainingData g).countP (fun s => s.threat_level == "low") = 100
        ∧ (generateSyntheticTrainingData g).countP (fun s => s.threat_level == "medium") = 100
        ∧ (generateSyntheticTrainingData g).countP (fun s => s.threat_level == "high") = 100
        ∧ (generateSyntheticTrainingData g).countP (fun s => s.threat_level == "critical") = 100)
    ∧ (∀ g : RngStream, (generateSyntheticTrainingData g).all sampleInRanges = true) := by
  refine ⟨fun g1 g2 => rfl, fun accuracy g1 g2 => rfl, fun g => ?_,
    fun g => ⟨?_, ?_, ?_, ?_⟩, fun g => ?_⟩
  · show (syntheticSamples (numpySeededStream 42)).length = 400
    decide
  · show (syntheticSamples (numpySeededStream 42)).countP
      (fun s => s.threat_level == "low") = 100
    decide
  · show (syntheticSamples (numpySeededStream 42)).countP
      (fun s => s.threat_level == "medium") = 100
    decide
  · show (syntheticSamples (numpySeededStream 42)).countP
      (fun s => s.threat_level == "high") = 100
    decide
  · show (syntheticSamples (numpySeededStream 42)).countP
      (fun s => s.threat_level == "critical") = 100
    decide
  · exact syntheticSamples_all_inRanges (numpySeededStream 42) (numpySeededStream_unit 42)

/- Section: Model Registry (src/ml-service/utils/model_persistence.py,
save_model lines 17-86, calculate_model_hash lines 143-155,
verify_model_integrity lines 157-187).  Files are byte lists addressed by
path; SHA-256 is abstracted as a parameter H, since only recompute-and-
compare behaviour is the repository's own code. -/

/-- The file store: path to stored bytes. -/
structure FileStore where
  files : String → Option (List ℕ)

/-- The bytes of the string "unknown" that calculate_model_hash returns when
it cannot read the file. -/
def unknownHashBytes : List ℕ := [117, 110, 107, 110, 111, 119, 110]

/-- Write (create or overwrite) one file. -/
def writeFile (fs : FileStore) (p : String) (c : List ℕ) : FileStore :=
  ⟨fun q => if q = p then some c else fs.files q⟩

/-- Embedding of calculate_model_hash: hash the file's bytes, or the string
"unknown" when the file cannot be read. -/
def calculateModelHash (hashFn : List ℕ → List ℕ) (fs : FileStore) (p : String) : List ℕ :=
  match fs.files p with
  | some c => hashFn c
  | none => unknownHashBytes

/-- Embedding of save_model for a .pkl path: write the artifact bytes, then
write the info file recording the content hash of the just-written file
(the other metadata of lines 69-75 does not affect verification). -/
def saveModel (hashFn : List ℕ → List ℕ) (fs : FileStore) (p : String) (c : List ℕ) :
    FileStore :=
  let fs1 := writeFile fs p c
  writeFile fs1 (p ++ ".info.json") (calculateModelHash hashFn fs1 p)

/-- Embedding of verify_model_integrity: false when the info file is
missing, when no usable hash is stored, or when the stored hash differs
from the recomputed hash of the current file bytes. -/
def verifyModelIntegrity (hashFn : List ℕ → List ℕ) (fs : FileStore) (p : String) : Bool :=
  match fs.files (p ++ ".info.json") with
  | none => false
  | some stored =>
    if stored = [] ∨ stored = unknownHashBytes then false
    else stored == calculateModelHash hashFn fs p

theorem infoPath_ne (p : String) : ¬(p ++ ".info.json" = p) := by
  intro h
  have hlen : (p ++ ".info.json").length = p.length + 10 := by
    rw [String.length_append]
    rfl
  rw [h] at hlen
  omega

/-- Claim C9: saving an artifact and then verifying the stored file returns
true (provided the hash is neither empty nor the reserved "unknown" string,
which holds of real SHA-256 hex digests); and corrupting any byte of the
stored artifact afterwards makes verify return false, as long as the hash of
the corrupted bytes differs from the hash of the original bytes (SHA-256
collision freedom, assumed of the abstracted hash). -/
theorem modelRegistry_verify_spec (hashFn : List ℕ → List ℕ) (fs : FileStore)
    (p : String) (c : List ℕ)
    (hne : hashFn c ≠ []) (hnu : hashFn c ≠ unknownHashBytes) :
    verifyModelIntegrity hashFn (saveModel hashFn fs p c) p = true
      ∧ ∀ i v, c.set i v ≠ c → hashFn (c.set i v) ≠ hashFn c →
          verifyModelIntegrity hashFn
            (writeFile (saveModel hashFn fs p c) p (c.set i v)) p = false := by
  have hip : ¬(p ++ ".info.json" = p) := infoPath_ne p
  have hip2 : ¬(p = p ++ ".info.json") := fun h => hip h.symm
  have hread : (saveModel hashFn fs p c).files p = some c := by
    unfold saveModel writeFile calculateModelHash
    simp [hip2]
  have hinfo : (saveModel hashFn fs p c).files (p ++ ".info.json")
      = some (hashFn c) := by
    unfold saveModel writeFile calculateModelHash
    simp [hip, hip2]
  have hnor : ¬(hashFn c = [] ∨ hashFn c = unknownHashBytes) := not_or.mpr ⟨hne, hnu⟩
  constructor
  · unfold verifyModelIntegrity
    rw [hinfo]
    show (if hashFn c = [] ∨ hashFn c = unknownHashBytes then false
      else hashFn c == calculateModelHash hashFn (saveModel hashFn fs p c) p) = true
    rw [if_neg hnor]
    unfold calculateModelHash
    rw [hread]
    simp
  · intro i v hchanged hcoll
    have hinfo2 : (writeFile (saveModel hashFn fs p c) p (c.set i v)).files
        (p ++ ".info.json") = some (hashFn c) := by
      unfold writeFile
      simp only [if_neg hip]
      exact hinfo
    have hread2 : (writeFile (saveModel hashFn fs p c) p (c.set i v)).files p
        = some (c.set i v) := by
      unfold writeFile
      simp
    unfold verifyModelIntegrity
    rw [hinfo2]
    show (if hashFn c = [] ∨ hashFn c = unknownHashBytes then false
      else hashFn c ==
        calculateModelHash hashFn
          (writeFile (saveModel hashFn fs p c) p (c.set i v)) p) = false
    rw [if_neg hnor]
    unfold calculateModelHash
    rw [hread2]
    simp
    intro heq
    exact absurd heq.symm hcoll

/-- Concrete instantiation of the C9 theorem with the identity hash on a
one-byte artifact corrupted at position 0. -/
theorem modelRegistry_verify_spec_witness :
    ((fun l => l) ([1] : List ℕ) ≠ [] ∧ (fun l => l) ([1] : List ℕ) ≠ unknownHashBytes
      ∧ ([1] : List ℕ).set 0 2 ≠ [1]
      ∧ (fun l => l) (([1] : List ℕ).set 0 2) ≠ (fun l => l) ([1] : List ℕ))
    ∧ verifyModelIntegrity (fun l => l)
        (saveModel (fun l => l) ⟨fun _ => none⟩ "model.pkl" [1]) "model.pkl" = true
    ∧ verifyModelIntegrity (fun l => l)
        (writeFile (saveModel (fun l => l) ⟨fun _ => none⟩ "model.pkl" [1]) "model.pkl"
          (([1] : List ℕ).set 0 2)) "model.pkl" = false := by
  have h := modelRegistry_verify_spec (fun l => l) ⟨fun _ => none⟩ "model.pkl" [1]
    (by decide) (by decide)
  exact ⟨⟨by decide, by decide, by decide, by decide⟩, h.1, h.2 0 2 (by decide) (by decide)⟩

/- Section: the flood-risk request handler (predict_flood_risk, app.py lines
743-798).  The handler is a module-level Flask route; on line 780 it
evaluates the expression self._calculate_overall_risk(...), which resolves
the bare name self against the handler's local scope, then the module's
global scope, then the builtins -- and none of them binds self. -/

/-- The names bound at module level in app.py (imports, module globals, the
service instance, the route handlers and the two module-level helper
functions). -/
def moduleLevelNames : List String :=
  ["os", "json", "logging", "datetime", "timedelta", "Dict", "List", "Any", "Optional",
   "pd", "np", "Flask", "request", "jsonify", "CORS", "Prophet", "IsolationForest",
   "DecisionTreeClassifier", "StandardScaler", "train_test_split", "classification_report",
   "joblib", "logger", "app", "water_level_model", "wind_model", "rainfall_model",
   "anomaly_detector", "scaler", "CoastalThreatML", "ml_service", "health_check",
   "predict_water_levels", "detect_anomalies", "train_models", "get_status",
   "predict_flood_risk", "classify_threat_severity", "train_threat_classifier",
   "_calculate_overall_risk", "_generate_recommendations", "port"]

/-- The local names bound in predict_flood_risk by the time line 780 runs. -/
def predictFloodRiskLocals : List String :=
  ["data", "current_data", "water_prediction", "flood_risk",
   "additional_risk_factors", "rainfall", "wind"]

/-- A representative set of Python builtin names (none of them is self). -/
def pythonBuiltins : List String :=
  ["len", "max", "min", "round", "isinstance", "str", "int", "float", "list", "dict",
   "print", "range", "enumerate", "type", "Exception", "ValueError", "KeyError",
   "IndexError", "NameError", "True", "False", "None"]

/-- Python name resolution at line 780 of app.py: locals, then module
globals, then builtins. -/
def nameResolvesAtLine780 (n : String) : Bool :=
  n ∈ predictFloodRiskLocals || n ∈ moduleLevelNames || n ∈ pythonBuiltins

/-- Embedding of _generate_recommendations (app.py lines 895-927). -/
def generateRecommendations (risk : OverallRisk) : List String :=
  if risk.level = "critical" then
    ["Immediate evacuation recommended", "Emergency services should be notified",
     "Avoid all coastal areas", "Monitor official emergency broadcasts"]
  else if risk.level = "high" then
    ["Prepare for potential evacuation", "Secure outdoor items",
     "Avoid unnecessary travel to coastal areas", "Stay informed about weather conditions"]
  else if risk.level = "medium" then
    ["Monitor weather conditions", "Prepare emergency supplies",
     "Stay away from flood-prone areas", "Follow local authority guidance"]
  else if risk.level = "low" then
    ["Normal conditions - no immediate action required",
     "Continue monitoring weather updates", "Be aware of changing conditions"]
  else []

/-- The water-level prediction dict consumed by predict_flood_risk. -/
structure WaterPredictionResult where
  predictions : List ForecastPoint
  flood_risk : FloodRisk
  prediction_hours : ℕ
deriving DecidableEq

/-- The current_data dict of a flood-risk request. -/
structure CurrentData where
  rainfall : Option ℚ
  wind : Option ℚ
deriving DecidableEq

/-- The success payload predict_flood_risk would build. -/
structure FloodRiskResponse where
  overall_risk : OverallRisk
  water_level_risk : FloodRisk
  additional_factors : List RiskFactor
  recommendations : List String
deriving DecidableEq

/-- Embedding of predict_flood_risk (app.py lines 743-798).  The result of
ml_service.predict_water_levels(24) -- which itself may raise -- is passed in
as waterPrediction; the auxiliary factors are derived from current_data; then
line 780 evaluates self._calculate_overall_risk, where the name self does not
resolve, so Python raises NameError, which the handler's except clause turns
into an error response. -/
def predictFloodRiskRoute (waterPrediction : Except MLErr WaterPredictionResult)
    (currentData : CurrentData) : Except MLErr FloodRiskResponse :=
  match waterPrediction with
  | .error e => .error e
  | .ok wp =>
    let floodRisk := wp.flood_risk
    let rainFactors : List RiskFactor :=
      match currentData.rainfall with
      | none => []
      | some rainfall =>
        if rainfall > 50 then
          [⟨"heavy_rainfall", if rainfall > 80 then "high" else "medium",
            "Heavy rainfall: " ++ toString rainfall ++ " mm/h"⟩]
        else []
    let windFactors : List RiskFactor :=
      match currentData.wind with
      | none => []
      | some wind =>
        if wind > 20 then
          [⟨"high_winds", if wind > 30 then "high" else "medium",
            "High winds: " ++ toString wind ++ " m/s"⟩]
        else []
    let additionalRiskFactors := rainFactors ++ windFactors
    if nameResolvesAtLine780 "self" then
      let overallRisk := calculateOverallRisk floodRisk additionalRiskFactors
      .ok ⟨overallRisk, floodRisk, additionalRiskFactors,
        generateRecommendations overallRisk⟩
    else .error (.nameErr "self")

/-- Boolean success test for an embedded handler result. -/
def isOkResult (r : Except MLErr FloodRiskResponse) : Bool :=
  match r with
  | .ok _ => true
  | .error _ => false

/-- Claim C10: every invocation of the flood-risk aggregation path fails
before producing a result: either the water-level prediction itself raises,
or the handler reaches line 780 where the name self is unbound (it is not a
local, not a module global, not a builtin) and NameError is raised, so the
combined assessment and recommendations are unreachable. -/
theorem predictFloodRiskRoute_always_fails :
    (nameResolvesAtLine780 "self" = false)
      ∧ ∀ (waterPrediction : Except MLErr WaterPredictionResult)
          (currentData : CurrentData),
          isOkResult (predictFloodRiskRoute waterPrediction currentData) = false := by
  refine ⟨by decide, ?_⟩
  intro waterPrediction currentData
  match waterPrediction with
  | .error e => rfl
  | .ok wp =>
    unfold predictFloodRiskRoute
    dsimp only
    rw [if_neg (by decide)]
    rfl
